import Mathlib

/-
  Shallow embedding of `nmtpytorch/models/nmtv2.py` (class `NMTv2`).

  Python dictionaries are modelled as association lists `List (String × α)`
  with first-match lookup; Python values occurring in the model options are
  modelled by the inductive `OptVal`.  Construction (`__init__`) and `setup`
  are modelled as `Except PyError`-valued functions, where `PyError`
  distinguishes the exception classes the Python code can raise on the
  modelled paths.  External collaborators (the `Topology` parser, the
  `Vocabulary` loader, the RNN layers, the MRR metric) are not part of the
  source file and are taken as parameters or modelled from the spec.
-/

namespace NMTv2

/-- Python values appearing in the model-options dictionary of `set_defaults`:
integers, floats (modelled exactly as rationals, they are only stored),
strings, booleans and `None`. -/
inductive OptVal where
  | vint (n : Int)
  | vfloat (q : Rat)
  | vstr (s : String)
  | vbool (b : Bool)
  | vnone
deriving DecidableEq, Repr

/-- First-match lookup in an association list, the model of `d[k]` /
`d.get(k)` on a Python dict represented as a key-value list. -/
def lookupKey {α : Type} (k : String) : List (String × α) → Option α
  | [] => none
  | p :: rest => if p.1 == k then some p.2 else lookupKey k rest

/-- Model of the Python membership test `k in d` on a dict. -/
def hasKey {α : Type} (k : String) (d : List (String × α)) : Bool :=
  (lookupKey k d).isSome

/-- Model of the Python assignment `d[k] = v` when `k` is already a key of
`d`: the value at the first occurrence of `k` is replaced, keys and their
order are unchanged. -/
def setKey {α : Type} (k : String) (v : α) : List (String × α) → List (String × α)
  | [] => []
  | p :: rest => if p.1 == k then (p.1, v) :: rest else p :: setKey k v rest

/-- The `self.defaults` dictionary built by `NMTv2.set_defaults`, with the
exact keys and default values of the source. -/
def defaults : List (String × OptVal) := [
  ("emb_dim", .vint 128),
  ("emb_maxnorm", .vnone),
  ("emb_gradscale", .vbool false),
  ("enc_dim", .vint 256),
  ("enc_type", .vstr "gru"),
  ("n_encoders", .vint 1),
  ("dec_dim", .vint 256),
  ("dec_type", .vstr "gru"),
  ("dec_init", .vstr "mean_ctx"),
  ("dec_init_activ", .vstr "tanh"),
  ("dec_init_size", .vnone),
  ("att_type", .vstr "mlp"),
  ("att_temp", .vfloat 1),
  ("att_activ", .vstr "tanh"),
  ("att_mlp_bias", .vbool false),
  ("att_bottleneck", .vstr "ctx"),
  ("att_transform_ctx", .vbool true),
  ("concat_outputs", .vbool true),
  ("n_layers_preatt", .vint 1),
  ("n_layers_postatt", .vint 1),
  ("dropout_emb", .vint 0),
  ("dropout_ctx", .vint 0),
  ("dropout_out", .vint 0),
  ("dropout_enc", .vint 0),
  ("dropout_dec", .vint 0),
  ("tied_emb", .vbool false),
  ("direction", .vnone),
  ("max_len", .vint 80),
  ("bucket_by", .vnone)]

/-- The loop of `NMTv2.set_model_options`: for each `(opt, value)` of the
input dict, override the entry of `d` when `opt` is a key of `d`, otherwise
only log a warning (a no-op on the dictionary). -/
def set_model_options_loop {α : Type} (d : List (String × α))
    (model_opts : List (String × α)) : List (String × α) :=
  model_opts.foldl (fun d p => if hasKey p.1 d then setKey p.1 p.2 d else d) d

/-- `NMTv2.set_model_options`: calls `set_defaults` and overrides the
defaults from the given dict, returning the (mutated) defaults dict. -/
def set_model_options (model_opts : List (String × OptVal)) : List (String × OptVal) :=
  set_model_options_loop defaults model_opts

/-- Modelled from the spec: the `Topology` object parsed in `__init__` from
the `direction` model option; the source file only uses its source and
target language lists (`get_src_langs`, `get_trg_langs`), so the model
keeps exactly those, produced by an abstract parser taken as a parameter. -/
structure Topology where
  srcs : List String
  trgs : List String
deriving DecidableEq, Repr

/-- Modelled from the spec: a `Vocabulary` object loaded from a file name
under a name; the source file only uses its construction arguments and its
length `len(vocab)`, recorded here as `size`. -/
structure Vocabulary where
  fname : String
  name : String
  size : Nat
deriving DecidableEq, Repr

/-- The Python exception classes distinguishable on the modelled paths of
`__init__` and `setup`. -/
inductive PyError where
  | keyError
  | attributeError
  | typeError
  | assertionError
deriving DecidableEq, Repr

/-- The configuration sections of the `opts` argument of `__init__` read by
the source: `.model`, `.vocabulary` (name to file name) and
`.data['val_set']` (language to reference file), with `none` when `val_set`
is not a key of `.data`. -/
structure Opts where
  model : List (String × OptVal)
  vocabulary : List (String × String)
  val_set : Option (List (String × String))
deriving DecidableEq, Repr

/-- Model of the Python subscript `d[k]` on a dict: `KeyError` when the key
is absent. -/
def getItem {α : Type} (d : List (String × α)) (k : String) : Except PyError α :=
  match lookupKey k d with
  | some v => Except.ok v
  | none => Except.error PyError.keyError

/-- Model of reading an instance attribute that is only conditionally
assigned: `AttributeError` when it was never set. -/
def getAttr {α : Type} (a : Option α) : Except PyError α :=
  match a with
  | some v => Except.ok v
  | none => Except.error PyError.attributeError

/-- Model of the Python expression `x * 2` on an option value: numbers and
booleans multiply, strings repeat, `None` raises `TypeError`. -/
def pyMul2 : OptVal → Except PyError OptVal
  | .vint n => Except.ok (.vint (n * 2))
  | .vfloat q => Except.ok (.vfloat (q * 2))
  | .vbool b => Except.ok (.vint (if b then 2 else 0))
  | .vstr s => Except.ok (.vstr (s ++ s))
  | .vnone => Except.error PyError.typeError

/-- The black-box `TextEncoder` layer, recorded as its construction
keyword arguments; `emb_weight` is an abstract handle for the underlying
`emb.weight` tensor object, used to express aliasing. -/
structure TextEncoder where
  input_size : OptVal
  hidden_size : OptVal
  n_vocab : Nat
  rnn_type : OptVal
  src_sorted_batches : Bool
  dropout_emb : OptVal
  dropout_ctx : OptVal
  dropout_rnn : OptVal
  num_layers : OptVal
  emb_maxnorm : OptVal
  emb_gradscale : OptVal
  emb_weight : Nat
deriving DecidableEq, Repr

/-- The black-box `GRUDecoder` layer, recorded as its construction keyword
arguments; `emb_weight` is an abstract handle for the underlying
`emb.weight` tensor object. -/
structure GRUDecoder where
  input_size : OptVal
  hidden_size : OptVal
  ctx_size_dict : List (String × OptVal)
  ctx_name : String
  n_vocab : Nat
  n_layers_preatt : OptVal
  n_layers_postatt : OptVal
  tied_emb : OptVal
  dec_init : OptVal
  dec_init_size : OptVal
  dec_init_activ : OptVal
  att_type : OptVal
  att_activ : OptVal
  att_bottleneck : OptVal
  att_temp : OptVal
  att_mlp_bias : OptVal
  dropout_out : OptVal
  dropout_dec : OptVal
  emb_maxnorm : OptVal
  emb_gradscale : OptVal
  emb_weight : Nat
deriving DecidableEq, Repr

/-- The instance attributes of an `NMTv2` object assigned by `__init__` and
`setup`; attributes that are only conditionally assigned are `Option`s
(with `ctx_sizes` defaulting to the empty dict when `enc_dim` is absent). -/
structure NMTv2State where
  opts_model : List (String × OptVal)
  vocabs : List (String × Vocabulary)
  topology : Topology
  sl : Option String
  tl : Option String
  src_vocab : Option Vocabulary
  n_src_vocab : Option Nat
  trg_vocab : Option Vocabulary
  n_trg_vocab : Option Nat
  ctx_sizes : List (String × OptVal)
  val_refs : String
  enc : Option TextEncoder
  dec : Option GRUDecoder
deriving DecidableEq, Repr

/-- `NMTv2.__init__`: sets the model options, parses the topology from the
`direction` option, loads a vocabulary for each `(name, fname)` of the
vocabulary section, conditionally sets the first source and target
languages with their vocabularies and sizes, computes `ctx_sizes`, checks
the 3-way-tying assertion and reads the validation references. The external
`Topology` parser and `Vocabulary` loader are parameters. -/
def init (parseTopology : OptVal → Topology)
    (loadVocab : String → String → Vocabulary)
    (opts : Opts) : Except PyError NMTv2State :=
  let model := set_model_options opts.model
  getItem model "direction" >>= fun direction =>
  let topology := parseTopology direction
  let vocabs := opts.vocabulary.map (fun p => (p.1, loadVocab p.2 p.1))
  (match topology.srcs with
   | [] => Except.ok (none, none, none)
   | s :: _ =>
      getItem vocabs s >>= fun v =>
      Except.ok (some s, some v, some v.size)) >>= fun slt =>
  (match topology.trgs with
   | [] => Except.ok (none, none, none)
   | t :: _ =>
      getItem vocabs t >>= fun v =>
      Except.ok (some t, some v, some v.size)) >>= fun tlt =>
  (if hasKey "enc_dim" model then
    getAttr slt.1 >>= fun s =>
    getItem model "enc_dim" >>= fun e =>
    pyMul2 e >>= fun v =>
    Except.ok [(s, v)]
   else Except.ok []) >>= fun ctx_sizes =>
  getItem model "tied_emb" >>= fun tied =>
  (if tied = OptVal.vstr "3way" then
    getAttr slt.2.2 >>= fun ns =>
    getAttr tlt.2.2 >>= fun nt =>
    if ns = nt then Except.ok () else Except.error PyError.assertionError
   else Except.ok ()) >>= fun _ =>
  getAttr tlt.1 >>= fun t =>
  (match opts.val_set with
   | some d => Except.ok d
   | none => Except.error PyError.keyError) >>= fun vs =>
  getItem vs t >>= fun val_refs =>
  Except.ok {
    opts_model := model, vocabs := vocabs, topology := topology,
    sl := slt.1, tl := tlt.1,
    src_vocab := slt.2.1, n_src_vocab := slt.2.2,
    trg_vocab := tlt.2.1, n_trg_vocab := tlt.2.2,
    ctx_sizes := ctx_sizes, val_refs := val_refs,
    enc := none, dec := none }

/-- `NMTv2.setup`: builds the `TextEncoder` and the `GRUDecoder` from the
model options and assigns them to `self.enc` and `self.dec`; under 3-way
tying the encoder embedding weight is re-bound to the decoder's. The fresh
weight tensors allocated by the two layers are the parameters `encWeight`
and `decWeight`. -/
def setup (encWeight decWeight : Nat) (st : NMTv2State) : Except PyError NMTv2State :=
  let m := st.opts_model
  getItem m "emb_dim" >>= fun emb_dim =>
  getItem m "enc_dim" >>= fun enc_dim =>
  getAttr st.n_src_vocab >>= fun n_src =>
  getItem m "enc_type" >>= fun enc_type =>
  getItem m "dropout_emb" >>= fun dropout_emb =>
  getItem m "dropout_ctx" >>= fun dropout_ctx =>
  getItem m "dropout_enc" >>= fun dropout_enc =>
  getItem m "n_encoders" >>= fun n_encoders =>
  getItem m "emb_maxnorm" >>= fun emb_maxnorm =>
  getItem m "emb_gradscale" >>= fun emb_gradscale =>
  let enc : TextEncoder := {
    input_size := emb_dim, hidden_size := enc_dim, n_vocab := n_src,
    rnn_type := enc_type, src_sorted_batches := true,
    dropout_emb := dropout_emb, dropout_ctx := dropout_ctx,
    dropout_rnn := dropout_enc, num_layers := n_encoders,
    emb_maxnorm := emb_maxnorm, emb_gradscale := emb_gradscale,
    emb_weight := encWeight }
  getItem m "dec_dim" >>= fun dec_dim =>
  getAttr st.sl >>= fun slv =>
  getAttr st.n_trg_vocab >>= fun n_trg =>
  getItem m "n_layers_preatt" >>= fun n_layers_preatt =>
  getItem m "n_layers_postatt" >>= fun n_layers_postatt =>
  getItem m "tied_emb" >>= fun tied_emb =>
  getItem m "dec_init" >>= fun dec_init =>
  getItem m "dec_init_size" >>= fun dec_init_size =>
  getItem m "dec_init_activ" >>= fun dec_init_activ =>
  getItem m "att_type" >>= fun att_type =>
  getItem m "att_activ" >>= fun att_activ =>
  getItem m "att_bottleneck" >>= fun att_bottleneck =>
  getItem m "att_temp" >>= fun att_temp =>
  getItem m "att_mlp_bias" >>= fun att_mlp_bias =>
  getItem m "dropout_out" >>= fun dropout_out =>
  getItem m "dropout_dec" >>= fun dropout_dec =>
  let dec : GRUDecoder := {
    input_size := emb_dim, hidden_size := dec_dim,
    ctx_size_dict := st.ctx_sizes, ctx_name := slv, n_vocab := n_trg,
    n_layers_preatt := n_layers_preatt, n_layers_postatt := n_layers_postatt,
    tied_emb := tied_emb, dec_init := dec_init, dec_init_size := dec_init_size,
    dec_init_activ := dec_init_activ, att_type := att_type,
    att_activ := att_activ, att_bottleneck := att_bottleneck,
    att_temp := att_temp, att_mlp_bias := att_mlp_bias,
    dropout_out := dropout_out, dropout_dec := dropout_dec,
    emb_maxnorm := emb_maxnorm, emb_gradscale := emb_gradscale,
    emb_weight := decWeight }
  let enc2 := if tied_emb = OptVal.vstr "3way"
    then { enc with emb_weight := dec.emb_weight } else enc
  Except.ok { st with enc := some enc2, dec := some dec }

/-- A 2-D integer tensor (time steps × batch positions) of token ids, the
shape of the language entries of a batch dictionary. -/
abbrev Tensor := List (List Int)

/-- Model of `torch.nonzero` on a 2-D tensor: the row-major list of
coordinates of the nonzero entries (`shape[0]` of the result is its
length). -/
def torchNonzero (t : Tensor) : List (Nat × Nat) :=
  (t.enum.map (fun ir =>
    ir.2.enum.filterMap (fun jx =>
      if jx.2 ≠ 0 then some (ir.1, jx.1) else none))).flatten

/-- Output dictionary of the black-box `GRUDecoder` call; the source reads
its `loss` and `logps` entries. -/
structure DecOut (L : Type) where
  loss : Rat
  logps : L

/-- Runtime view of an `NMTv2` instance as used by `encode`, `forward` and
`test_performance`: the first source and target languages and the two
black-box layer callables `self.enc` and `self.dec`. -/
structure RuntimeModel (E L : Type) where
  sl : String
  tl : String
  enc : Tensor → E
  dec : List (String × E) → Tensor → DecOut L

/-- Result dictionary of `NMTv2.forward`: the decoder output dict with the
`n_items` entry added. -/
structure ForwardOut (L : Type) where
  loss : Rat
  logps : L
  n_items : Nat

/-- `NMTv2.encode`: a dictionary with the single key `str(self.sl)` mapped
to `self.enc(batch[self.sl])`. -/
def encode {E L : Type} (m : RuntimeModel E L) (batch : String → Tensor) :
    List (String × E) :=
  [(m.sl, m.enc (batch m.sl))]

/-- `NMTv2.forward`: the decoder applied to the encodings and the target
entry of the batch, with `n_items = torch.nonzero(batch[self.tl][1:]).shape[0]`
added to the result dict. -/
def forward {E L : Type} (m : RuntimeModel E L) (batch : String → Tensor) :
    ForwardOut L :=
  let result := m.dec (encode m batch) (batch m.tl)
  { loss := result.loss, logps := result.logps,
    n_items := (torchNonzero ((batch m.tl).drop 1)).length }

/-- Modelled from the spec: the running `Loss` meter used by
`test_performance` (class `Loss` of `utils.ml_metrics`, not part of this
file): it accumulates the scalar batch losses weighted by their token
counts together with the total token count. -/
structure LossState where
  total : Rat
  n_items : Nat
deriving DecidableEq, Repr

/-- Modelled from the spec: `Loss.update(loss, n_items)` adds the batch
loss weighted by the batch's token count. -/
def Loss_update (st : LossState) (loss : Rat) (n : Nat) : LossState :=
  { total := st.total + loss * n, n_items := st.n_items + n }

/-- Modelled from the spec: `Loss.get()` divides the accumulated weighted
loss by the accumulated token count. -/
def Loss_get (st : LossState) : Rat :=
  st.total / st.n_items

/-- A metric returned by `test_performance`:
`Metric(name, value, higher_better)`. -/
structure Metric where
  name : String
  value : Rat
  higher_better : Bool
deriving DecidableEq, Repr

/-- `NMTv2.test_performance`: runs `forward` on each batch of the loader,
updates the loss meter with the batch loss and `n_items`, updates the MRR
meter (the external `MeanReciprocalRank`, taken as the parameters
`mrrInit`, `mrrUpdate`, `mrrNorm`) with the target tokens after the first
time step and the log-probabilities, and returns the LOSS and MRR
metrics. -/
def test_performance {E L M : Type} (m : RuntimeModel E L)
    (mrrInit : M) (mrrUpdate : M → Tensor → L → M) (mrrNorm : M → Rat)
    (data_loader : List (String → Tensor)) : List Metric :=
  let final := data_loader.foldl
    (fun acc batch =>
      let out := forward m batch
      (Loss_update acc.1 out.loss out.n_items,
       mrrUpdate acc.2 ((batch m.tl).drop 1) out.logps))
    ({ total := 0, n_items := 0 }, mrrInit)
  [ { name := "LOSS", value := Loss_get final.1, higher_better := false },
    { name := "MRR", value := mrrNorm final.2, higher_better := true } ]

/-- A named parameter as yielded by `named_parameters()`: its dotted name,
its `requires_grad` flag and its tensor data (an abstract handle). -/
structure PyParam where
  name : String
  requires_grad : Bool
  data : Int
deriving DecidableEq, Repr

/-- Substring occurrence on character lists: `sub` occurs contiguously in
`l`. -/
def listContains (sub : List Char) : List Char → Bool
  | [] => sub.isEmpty
  | c :: rest => sub.isPrefixOf (c :: rest) || listContains sub rest

/-- Model of the Python substring test `sub in s`. -/
def strContains (s sub : String) : Bool :=
  listContains sub.toList s.toList

/-- `NMTv2.reset_parameters`: re-initializes with `nn.init.kaiming_normal`
(modelled as the abstract `init_fn`) the data of every named parameter
that requires gradients and whose name does not contain `'bias'`. -/
def reset_parameters (init_fn : PyParam → Int) (params : List PyParam) :
    List PyParam :=
  params.map (fun p =>
    if p.requires_grad && !(strContains p.name "bias")
    then { p with data := init_fn p } else p)

/-- A concrete direction parser for evaluating the model on closed inputs:
it understands `"xx->yy"` directions. -/
def pT0 : OptVal → Topology
  | OptVal.vstr "en->de" => { srcs := ["en"], trgs := ["de"] }
  | _ => { srcs := [], trgs := [] }

/-- A concrete vocabulary loader for evaluating the model on closed
inputs. -/
def lV0 : String → String → Vocabulary :=
  fun fname name => { fname := fname, name := name, size := 5 }

/-- A concrete well-formed options object. -/
def opts0 : Opts := {
  model := [("direction", OptVal.vstr "en->de")],
  vocabulary := [("en", "en.vocab"), ("de", "de.vocab")],
  val_set := some [("de", "refs.de")] }

/-- A concrete options object with 3-way tied embeddings. -/
def opts1 : Opts := {
  model := [("direction", OptVal.vstr "en->de"), ("tied_emb", OptVal.vstr "3way")],
  vocabulary := [("en", "en.vocab"), ("de", "de.vocab")],
  val_set := some [("de", "refs.de")] }

/-- Fallback state used by the concrete-state definitions below on the
error branch they never take. -/
def emptyState : NMTv2State := {
  opts_model := [], vocabs := [],
  topology := { srcs := [], trgs := [] },
  sl := none, tl := none, src_vocab := none, n_src_vocab := none,
  trg_vocab := none, n_trg_vocab := none,
  ctx_sizes := [], val_refs := "", enc := none, dec := none }

/-- The state constructed from `opts0`. -/
def st0 : NMTv2State :=
  match init pT0 lV0 opts0 with
  | Except.ok st => st
  | Except.error _ => emptyState

/-- The state constructed from `opts1`. -/
def st1 : NMTv2State :=
  match init pT0 lV0 opts1 with
  | Except.ok st => st
  | Except.error _ => emptyState

/-- The state `st0` after `setup`. -/
def st0s : NMTv2State :=
  match setup 0 1 st0 with
  | Except.ok st => st
  | Except.error _ => emptyState

/-- The state `st1` after `setup`. -/
def st1s : NMTv2State :=
  match setup 0 1 st1 with
  | Except.ok st => st
  | Except.error _ => emptyState

/-- Fallback encoder for the accessor below. -/
def emptyEncoder : TextEncoder := {
  input_size := OptVal.vnone, hidden_size := OptVal.vnone, n_vocab := 0,
  rnn_type := OptVal.vnone, src_sorted_batches := true,
  dropout_emb := OptVal.vnone, dropout_ctx := OptVal.vnone,
  dropout_rnn := OptVal.vnone, num_layers := OptVal.vnone,
  emb_maxnorm := OptVal.vnone, emb_gradscale := OptVal.vnone,
  emb_weight := 0 }

/-- Fallback decoder for the accessor below. -/
def emptyDecoder : GRUDecoder := {
  input_size := OptVal.vnone, hidden_size := OptVal.vnone,
  ctx_size_dict := [], ctx_name := "", n_vocab := 0,
  n_layers_preatt := OptVal.vnone, n_layers_postatt := OptVal.vnone,
  tied_emb := OptVal.vnone, dec_init := OptVal.vnone,
  dec_init_size := OptVal.vnone, dec_init_activ := OptVal.vnone,
  att_type := OptVal.vnone, att_activ := OptVal.vnone,
  att_bottleneck := OptVal.vnone, att_temp := OptVal.vnone,
  att_mlp_bias := OptVal.vnone, dropout_out := OptVal.vnone,
  dropout_dec := OptVal.vnone, emb_maxnorm := OptVal.vnone,
  emb_gradscale := OptVal.vnone, emb_weight := 0 }

/-- The encoder of `st1s`. -/
def e1 : TextEncoder :=
  match st1s.enc with
  | some e => e
  | none => emptyEncoder

/-- The decoder of `st1s`. -/
def d1 : GRUDecoder :=
  match st1s.dec with
  | some d => d
  | none => emptyDecoder

/-- A concrete parameter list: a re-initializable weight, a bias, and a
frozen weight. -/
def params0 : List PyParam := [
  { name := "enc.rnn.weight", requires_grad := true, data := 3 },
  { name := "enc.rnn.bias", requires_grad := true, data := 4 },
  { name := "frozen.weight", requires_grad := false, data := 5 }]

theorem lookupKey_eq_none_iff {α : Type} (k : String) (d : List (String × α)) :
    lookupKey k d = none ↔ k ∉ d.map Prod.fst := by
  induction d with
  | nil => simp [lookupKey]
  | cons p rest ih =>
    by_cases h : p.1 = k
    · simp [lookupKey, h]
    · have h2 : k ≠ p.1 := fun hc => h hc.symm
      simp [lookupKey, h, h2, ih]

theorem keys_setKey {α : Type} (k : String) (v : α) (d : List (String × α)) :
    (setKey k v d).map Prod.fst = d.map Prod.fst := by
  induction d with
  | nil => rfl
  | cons p rest ih =>
    by_cases h : p.1 = k
    · simp [setKey, h]
    · simp [setKey, h, ih]

theorem lookupKey_setKey_self {α : Type} (k : String) (v : α) (d : List (String × α))
    (h : hasKey k d = true) : lookupKey k (setKey k v d) = some v := by
  induction d with
  | nil => simp [hasKey, lookupKey] at h
  | cons p rest ih =>
    by_cases hp : p.1 = k
    · simp [setKey, lookupKey, hp]
    · have h2 : hasKey k rest = true := by
        simpa [hasKey, lookupKey, hp] using h
      simp [setKey, lookupKey, hp, ih h2]

theorem lookupKey_setKey_ne {α : Type} (k k2 : String) (v : α) (d : List (String × α))
    (h : k2 ≠ k) : lookupKey k2 (setKey k v d) = lookupKey k2 d := by
  induction d with
  | nil => rfl
  | cons p rest ih =>
    by_cases hp : p.1 = k
    · have hne2 : k ≠ k2 := fun hc => h hc.symm
      simp [setKey, lookupKey, hp, hne2]
    · by_cases hq : p.1 = k2
      · simp [setKey, lookupKey, hp, hq, h]
      · simp [setKey, lookupKey, hp, hq, ih]

theorem hasKey_iff_mem {α : Type} (k : String) (d : List (String × α)) :
    hasKey k d = true ↔ k ∈ d.map Prod.fst := by
  rw [hasKey]
  cases hl : lookupKey k d with
  | none => simp [(lookupKey_eq_none_iff k d).mp hl]
  | some v =>
    have hm : k ∈ d.map Prod.fst := by
      by_contra hc
      rw [(lookupKey_eq_none_iff k d).mpr hc] at hl
      cases hl
    simp [hm]

theorem keys_set_model_options_loop {α : Type} (model_opts d : List (String × α)) :
    (set_model_options_loop d model_opts).map Prod.fst = d.map Prod.fst := by
  induction model_opts generalizing d with
  | nil => rfl
  | cons p rest ih =>
    have step : set_model_options_loop d (p :: rest) =
        set_model_options_loop (if hasKey p.1 d then setKey p.1 p.2 d else d) rest := rfl
    rw [step]
    split
    · exact (ih (setKey p.1 p.2 d)).trans (keys_setKey p.1 p.2 d)
    · exact ih d

theorem lookupKey_set_model_options_loop {α : Type} (model_opts : List (String × α))
    (hnd : (model_opts.map Prod.fst).Nodup) :
    ∀ (d : List (String × α)) (k : String),
      lookupKey k (set_model_options_loop d model_opts) =
        if hasKey k d && hasKey k model_opts then lookupKey k model_opts
        else lookupKey k d := by
  induction model_opts with
  | nil => intro d k; simp [set_model_options_loop, hasKey, lookupKey]
  | cons p rest ih =>
    intro d k
    obtain ⟨k1, v1⟩ := p
    simp only [List.map_cons, List.nodup_cons] at hnd
    obtain ⟨hp, hrest⟩ := hnd
    have step : set_model_options_loop d ((k1, v1) :: rest) =
        set_model_options_loop (if hasKey k1 d then setKey k1 v1 d else d) rest := rfl
    rw [step]
    set d2 := if hasKey k1 d then setKey k1 v1 d else d with hd2
    have keys_d2 : d2.map Prod.fst = d.map Prod.fst := by
      rw [hd2]; split
      · exact keys_setKey k1 v1 d
      · rfl
    have hasKey_d2 : hasKey k d2 = hasKey k d := by
      by_cases hm : k ∈ List.map Prod.fst d
      · have h1 : hasKey k d2 = true := by
          rw [hasKey_iff_mem, keys_d2]; exact hm
        have h2 : hasKey k d = true := (hasKey_iff_mem k d).mpr hm
        rw [h1, h2]
      · have h1 : hasKey k d2 = false := by
          rw [Bool.eq_false_iff]
          intro hc
          rw [hasKey_iff_mem, keys_d2] at hc
          exact hm hc
        have h2 : hasKey k d = false := by
          rw [Bool.eq_false_iff]
          intro hc
          exact hm ((hasKey_iff_mem k d).mp hc)
        rw [h1, h2]
    rw [ih hrest d2 k, hasKey_d2]
    by_cases hk : k = k1
    · subst hk
      have hlrest : lookupKey k rest = none := (lookupKey_eq_none_iff k rest).mpr hp
      have hhrest : hasKey k rest = false := by simp [hasKey, hlrest]
      have hhcons : hasKey k ((k, v1) :: rest) = true := by simp [hasKey, lookupKey]
      have hlcons : lookupKey k ((k, v1) :: rest) = some v1 := by simp [lookupKey]
      rw [hhrest, hhcons, hlcons]
      by_cases hd : hasKey k d
      · have hd2val : lookupKey k d2 = some v1 := by
          rw [hd2, if_pos hd]
          exact lookupKey_setKey_self k v1 d hd
        simp [hd, hd2val]
      · have hdf : hasKey k d = false := by
          rw [Bool.eq_false_iff]; exact hd
        have hd2val : lookupKey k d2 = lookupKey k d := by
          rw [hd2, hdf]
          simp
        simp [hdf, hd2val]
    · have hlcons : lookupKey k ((k1, v1) :: rest) = lookupKey k rest := by
        have hne : k1 ≠ k := fun hc => hk hc.symm
        simp [lookupKey, hne]
      have hhcons : hasKey k ((k1, v1) :: rest) = hasKey k rest := by
        simp [hasKey, hlcons]
      have hd2val : lookupKey k d2 = lookupKey k d := by
        rw [hd2]; split
        · exact lookupKey_setKey_ne k1 k v1 d hk
        · rfl
      rw [hlcons, hhcons, hd2val]

/-- C1: `set_model_options` returns a dictionary with exactly the default
option keys; a key also present in the input takes the input's value, every
other key keeps its default value, and input keys that are not default
options do not appear in the result. -/
theorem set_model_options_spec (model_opts : List (String × OptVal))
    (hnd : (model_opts.map Prod.fst).Nodup) :
    ((set_model_options model_opts).map Prod.fst = defaults.map Prod.fst) ∧
    (∀ k, lookupKey k (set_model_options model_opts) =
      if hasKey k defaults && hasKey k model_opts then lookupKey k model_opts
      else lookupKey k defaults) := by
  constructor
  · exact keys_set_model_options_loop model_opts defaults
  · intro k
    exact lookupKey_set_model_options_loop model_opts hnd defaults k

/-- Witness for C1 at a concrete input: one overriding key, one unused key. -/
theorem set_model_options_spec_witness :
    ((([("emb_dim", OptVal.vint 512), ("foo", OptVal.vint 3)] :
        List (String × OptVal)).map Prod.fst).Nodup) ∧
    (((set_model_options [("emb_dim", .vint 512), ("foo", .vint 3)]).map Prod.fst
        = defaults.map Prod.fst) ∧
    (∀ k, lookupKey k (set_model_options [("emb_dim", .vint 512), ("foo", .vint 3)]) =
      if hasKey k defaults && hasKey k [("emb_dim", OptVal.vint 512), ("foo", OptVal.vint 3)]
      then lookupKey k [("emb_dim", OptVal.vint 512), ("foo", OptVal.vint 3)]
      else lookupKey k defaults)) :=
  ⟨by decide, set_model_options_spec [("emb_dim", .vint 512), ("foo", .vint 3)] (by decide)⟩

theorem bind_ok_iff {ε α β : Type} (x : Except ε α) (f : α → Except ε β) (b : β) :
    (x >>= f) = Except.ok b ↔ ∃ a, x = Except.ok a ∧ f a = Except.ok b := by
  cases x with
  | error e => simp [Bind.bind, Except.bind]
  | ok a => simp [Bind.bind, Except.bind]

theorem bind_error {ε α β : Type} (e : ε) (f : α → Except ε β) :
    ((Except.error e : Except ε α) >>= f) = Except.error e := rfl

theorem ok_bind {ε α β : Type} (a : α) (f : α → Except ε β) :
    ((Except.ok a : Except ε α) >>= f) = f a := rfl

theorem getItem_ok_iff {α : Type} (d : List (String × α)) (k : String) (v : α) :
    getItem d k = Except.ok v ↔ lookupKey k d = some v := by
  rw [getItem]
  cases h : lookupKey k d <;> simp

theorem getItem_eq_ok {α : Type} (d : List (String × α)) (k : String) (v : α)
    (h : lookupKey k d = some v) : getItem d k = Except.ok v := by
  simp [getItem, h]

theorem getAttr_ok_iff {α : Type} (a : Option α) (v : α) :
    getAttr a = Except.ok v ↔ a = some v := by
  cases a <;> simp [getAttr]

theorem hasKey_set_model_options (k : String) (m : List (String × OptVal))
    (hk : k ∈ defaults.map Prod.fst) : hasKey k (set_model_options m) = true := by
  rw [hasKey_iff_mem, set_model_options, keys_set_model_options_loop]
  exact hk

theorem init_ok_char (pT : OptVal → Topology) (lV : String → String → Vocabulary)
    (opts : Opts) (st : NMTv2State) (h : init pT lV opts = Except.ok st) :
    st.opts_model = set_model_options opts.model ∧
    st.vocabs = opts.vocabulary.map (fun p => (p.1, lV p.2 p.1)) ∧
    (∃ dv, lookupKey "direction" st.opts_model = some dv ∧ st.topology = pT dv) ∧
    (∀ s r, st.topology.srcs = s :: r → st.sl = some s ∧
      ∃ v, lookupKey s st.vocabs = some v ∧ st.src_vocab = some v ∧
        st.n_src_vocab = some v.size) ∧
    (∀ t r, st.topology.trgs = t :: r → st.tl = some t ∧
      ∃ v, lookupKey t st.vocabs = some v ∧ st.trg_vocab = some v ∧
        st.n_trg_vocab = some v.size) ∧
    (∃ s ev cv, st.sl = some s ∧ lookupKey "enc_dim" st.opts_model = some ev ∧
      pyMul2 ev = Except.ok cv ∧ st.ctx_sizes = [(s, cv)]) ∧
    st.topology.srcs ≠ [] ∧ st.topology.trgs ≠ [] := by
  rw [init] at h
  simp only [bind_ok_iff] at h
  obtain ⟨dv, hdv, h⟩ := h
  rw [getItem_ok_iff] at hdv
  obtain ⟨a, ha, h⟩ := h
  cases hsrcs : (pT dv).srcs with
  | nil =>
    -- the source-language branch leaves `sl` unset; the ctx_sizes block
    -- then reads `self.sl` and the construction cannot succeed
    rw [hsrcs] at ha
    simp only [Except.ok.injEq] at ha
    subst ha
    obtain ⟨b, hb, h⟩ := h
    obtain ⟨cx, hcx, h⟩ := h
    rw [hasKey_set_model_options "enc_dim" opts.model (by decide)] at hcx
    simp [getAttr, Bind.bind, Except.bind] at hcx
  | cons s srest =>
    rw [hsrcs] at ha
    simp only [bind_ok_iff, Except.ok.injEq] at ha
    obtain ⟨v1, hv1, ha⟩ := ha
    rw [getItem_ok_iff] at hv1
    subst ha
    obtain ⟨b, hb, h⟩ := h
    cases htrgs : (pT dv).trgs with
    | nil =>
      -- the target-language branch leaves `tl` unset; `__init__` later
      -- reads `self.tl` for the validation references and cannot succeed
      rw [htrgs] at hb
      simp only [Except.ok.injEq] at hb
      subst hb
      obtain ⟨cx, hcx, h⟩ := h
      obtain ⟨tied, htied, h⟩ := h
      obtain ⟨u, hu, h⟩ := h
      obtain ⟨t0, ht0, h⟩ := h
      simp [getAttr] at ht0
    | cons t trest =>
      rw [htrgs] at hb
      simp only [bind_ok_iff, Except.ok.injEq] at hb
      obtain ⟨v2, hv2, hb⟩ := hb
      rw [getItem_ok_iff] at hv2
      subst hb
      obtain ⟨cx, hcx, h⟩ := h
      rw [hasKey_set_model_options "enc_dim" opts.model (by decide)] at hcx
      rw [if_pos rfl] at hcx
      simp only [getAttr, ok_bind, bind_ok_iff] at hcx
      obtain ⟨ev, hev, hcx⟩ := hcx
      rw [getItem_ok_iff] at hev
      obtain ⟨cv, hcv, hcx⟩ := hcx
      simp only [Except.ok.injEq] at hcx
      subst hcx
      obtain ⟨tied, htied, h⟩ := h
      obtain ⟨u, hu, h⟩ := h
      obtain ⟨t0, ht0, h⟩ := h
      obtain ⟨vs, hvs, h⟩ := h
      obtain ⟨vr, hvr, h⟩ := h
      simp only [Except.ok.injEq] at h
      subst h
      refine ⟨rfl, rfl, ⟨dv, hdv, rfl⟩, ?_, ?_, ?_, ?_, ?_⟩
      · intro s2 r2 hs2
        rw [hsrcs] at hs2
        injection hs2 with h1 h2
        subst h1
        exact ⟨rfl, v1, hv1, rfl, rfl⟩
      · intro t2 r2 ht2
        rw [htrgs] at ht2
        injection ht2 with h1 h2
        subst h1
        exact ⟨rfl, v2, hv2, rfl, rfl⟩
      · exact ⟨s, ev, cv, rfl, hev, hcv, rfl⟩
      · rw [hsrcs]; exact fun hc => List.noConfusion hc
      · rw [htrgs]; exact fun hc => List.noConfusion hc

theorem setup_ok_char (ew dw : Nat) (st st2 : NMTv2State)
    (h : setup ew dw st = Except.ok st2) :
    ∃ e d, st2 = { st with enc := some e, dec := some d } ∧
      lookupKey "emb_dim" st.opts_model = some e.input_size ∧
      lookupKey "enc_dim" st.opts_model = some e.hidden_size ∧
      st.n_src_vocab = some e.n_vocab ∧
      lookupKey "enc_type" st.opts_model = some e.rnn_type ∧
      e.src_sorted_batches = true ∧
      lookupKey "dropout_emb" st.opts_model = some e.dropout_emb ∧
      lookupKey "dropout_ctx" st.opts_model = some e.dropout_ctx ∧
      lookupKey "dropout_enc" st.opts_model = some e.dropout_rnn ∧
      lookupKey "n_encoders" st.opts_model = some e.num_layers ∧
      lookupKey "emb_maxnorm" st.opts_model = some e.emb_maxnorm ∧
      lookupKey "emb_gradscale" st.opts_model = some e.emb_gradscale ∧
      lookupKey "emb_dim" st.opts_model = some d.input_size ∧
      lookupKey "dec_dim" st.opts_model = some d.hidden_size ∧
      d.ctx_size_dict = st.ctx_sizes ∧
      st.sl = some d.ctx_name ∧
      st.n_trg_vocab = some d.n_vocab ∧
      lookupKey "n_layers_preatt" st.opts_model = some d.n_layers_preatt ∧
      lookupKey "n_layers_postatt" st.opts_model = some d.n_layers_postatt ∧
      lookupKey "tied_emb" st.opts_model = some d.tied_emb ∧
      lookupKey "dec_init" st.opts_model = some d.dec_init ∧
      lookupKey "dec_init_size" st.opts_model = some d.dec_init_size ∧
      lookupKey "dec_init_activ" st.opts_model = some d.dec_init_activ ∧
      lookupKey "att_type" st.opts_model = some d.att_type ∧
      lookupKey "att_activ" st.opts_model = some d.att_activ ∧
      lookupKey "att_bottleneck" st.opts_model = some d.att_bottleneck ∧
      lookupKey "att_temp" st.opts_model = some d.att_temp ∧
      lookupKey "att_mlp_bias" st.opts_model = some d.att_mlp_bias ∧
      lookupKey "dropout_out" st.opts_model = some d.dropout_out ∧
      lookupKey "dropout_dec" st.opts_model = some d.dropout_dec ∧
      lookupKey "emb_maxnorm" st.opts_model = some d.emb_maxnorm ∧
      lookupKey "emb_gradscale" st.opts_model = some d.emb_gradscale ∧
      d.emb_weight = dw ∧
      (d.tied_emb = OptVal.vstr "3way" → e.emb_weight = d.emb_weight) ∧
      (d.tied_emb ≠ OptVal.vstr "3way" → e.emb_weight = ew) := by
  rw [setup] at h
  simp only [bind_ok_iff, getItem_ok_iff, getAttr_ok_iff] at h
  obtain ⟨emb_dim, h1, enc_dim, h2, n_src, h3, enc_type, h4, dropout_emb, h5,
    dropout_ctx, h6, dropout_enc, h7, n_encoders, h8, emb_maxnorm, h9,
    emb_gradscale, h10, dec_dim, h11, slv, h12, n_trg, h13,
    n_layers_preatt, h14, n_layers_postatt, h15, tied_emb, h16, dec_init, h17,
    dec_init_size, h18, dec_init_activ, h19, att_type, h20, att_activ, h21,
    att_bottleneck, h22, att_temp, h23, att_mlp_bias, h24, dropout_out, h25,
    dropout_dec, h26, h⟩ := h
  simp only [Except.ok.injEq] at h
  subst h
  by_cases ht : tied_emb = OptVal.vstr "3way"
  · rw [if_pos ht]
    exact ⟨_, _, rfl, h1, h2, h3, h4, rfl, h5, h6, h7, h8, h9, h10, h1, h11,
      rfl, h12, h13, h14, h15, h16, h17, h18, h19, h20, h21, h22, h23, h24,
      h25, h26, h9, h10, rfl, fun _ => rfl, fun hc => absurd ht hc⟩
  · rw [if_neg ht]
    exact ⟨_, _, rfl, h1, h2, h3, h4, rfl, h5, h6, h7, h8, h9, h10, h1, h11,
      rfl, h12, h13, h14, h15, h16, h17, h18, h19, h20, h21, h22, h23, h24,
      h25, h26, h9, h10, rfl, fun hc => absurd hc ht, fun _ => rfl⟩

theorem init_3way_assert (pT : OptVal → Topology) (lV : String → String → Vocabulary)
    (opts : Opts) (dv : OptVal) (s : String) (srest : List String)
    (t : String) (trest : List String) (v1 v2 : Vocabulary) (ev cv : OptVal)
    (hdv : lookupKey "direction" (set_model_options opts.model) = some dv)
    (hsrcs : (pT dv).srcs = s :: srest)
    (htrgs : (pT dv).trgs = t :: trest)
    (hv1 : lookupKey s (opts.vocabulary.map (fun p => (p.1, lV p.2 p.1))) = some v1)
    (hv2 : lookupKey t (opts.vocabulary.map (fun p => (p.1, lV p.2 p.1))) = some v2)
    (hev : lookupKey "enc_dim" (set_model_options opts.model) = some ev)
    (hcv : pyMul2 ev = Except.ok cv)
    (htied : lookupKey "tied_emb" (set_model_options opts.model) = some (OptVal.vstr "3way")) :
    init pT lV opts = Except.error PyError.assertionError ↔ v1.size ≠ v2.size := by
  have hck : hasKey "enc_dim" (set_model_options opts.model) = true :=
    hasKey_set_model_options "enc_dim" opts.model (by decide)
  simp only [init, getItem_eq_ok _ _ _ hdv, hsrcs, htrgs,
    getItem_eq_ok _ _ _ hv1, getItem_eq_ok _ _ _ hv2,
    getItem_eq_ok _ _ _ hev, getItem_eq_ok _ _ _ htied,
    hcv, hck, ok_bind, getAttr, eq_self_iff_true, if_true]
  by_cases hsz : v1.size = v2.size
  · rw [if_pos hsz, ok_bind]
    have hne : ¬(v1.size ≠ v2.size) := by simp [hsz]
    cases hvset : opts.val_set with
    | none => simp [Bind.bind, Except.bind, hne]
    | some vsd =>
      cases hg : lookupKey t vsd with
      | none => simp [getItem, hg, Bind.bind, Except.bind, hne]
      | some r => simp [getItem, hg, Bind.bind, Except.bind, hne]
  · rw [if_neg hsz, bind_error]
    simp [hsz]

/-- C4: `setup` builds the encoder as a `TextEncoder` whose input size,
hidden size, RNN type, layer count, embedding and dropout settings come
from the corresponding model options and whose `n_vocab` is the source
vocabulary size, and the decoder as a `GRUDecoder` parameterized from the
same options with `n_vocab` the target vocabulary size and context sizes
`self.ctx_sizes`. -/
theorem setup_builds_layers (ew dw : Nat) (st st2 : NMTv2State)
    (h : setup ew dw st = Except.ok st2) :
    ∃ e d, st2.enc = some e ∧ st2.dec = some d ∧
      lookupKey "emb_dim" st.opts_model = some e.input_size ∧
      lookupKey "enc_dim" st.opts_model = some e.hidden_size ∧
      st.n_src_vocab = some e.n_vocab ∧
      lookupKey "enc_type" st.opts_model = some e.rnn_type ∧
      lookupKey "n_encoders" st.opts_model = some e.num_layers ∧
      lookupKey "dropout_emb" st.opts_model = some e.dropout_emb ∧
      lookupKey "dropout_ctx" st.opts_model = some e.dropout_ctx ∧
      lookupKey "dropout_enc" st.opts_model = some e.dropout_rnn ∧
      lookupKey "emb_maxnorm" st.opts_model = some e.emb_maxnorm ∧
      lookupKey "emb_gradscale" st.opts_model = some e.emb_gradscale ∧
      lookupKey "emb_dim" st.opts_model = some d.input_size ∧
      lookupKey "dec_dim" st.opts_model = some d.hidden_size ∧
      d.ctx_size_dict = st.ctx_sizes ∧
      st.n_trg_vocab = some d.n_vocab ∧
      lookupKey "n_layers_preatt" st.opts_model = some d.n_layers_preatt ∧
      lookupKey "n_layers_postatt" st.opts_model = some d.n_layers_postatt ∧
      lookupKey "tied_emb" st.opts_model = some d.tied_emb ∧
      lookupKey "dec_init" st.opts_model = some d.dec_init ∧
      lookupKey "dec_init_size" st.opts_model = some d.dec_init_size ∧
      lookupKey "dec_init_activ" st.opts_model = some d.dec_init_activ ∧
      lookupKey "att_type" st.opts_model = some d.att_type ∧
      lookupKey "att_activ" st.opts_model = some d.att_activ ∧
      lookupKey "att_bottleneck" st.opts_model = some d.att_bottleneck ∧
      lookupKey "att_temp" st.opts_model = some d.att_temp ∧
      lookupKey "att_mlp_bias" st.opts_model = some d.att_mlp_bias ∧
      lookupKey "dropout_out" st.opts_model = some d.dropout_out ∧
      lookupKey "dropout_dec" st.opts_model = some d.dropout_dec ∧
      lookupKey "emb_maxnorm" st.opts_model = some d.emb_maxnorm ∧
      lookupKey "emb_gradscale" st.opts_model = some d.emb_gradscale := by
  obtain ⟨e, d, hst2, c1, c2, c3, c4, c5, c6, c7, c8, c9, c10, c11, c12, c13,
    c14, c15, c16, c17, c18, c19, c20, c21, c22, c23, c24, c25, c26, c27,
    c28, c29, c30, c31, c32, c33, c34⟩ := setup_ok_char ew dw st st2 h
  subst hst2
  exact ⟨e, d, rfl, rfl, c1, c2, c3, c4, c9, c6, c7, c8, c10, c11, c12, c13,
    c14, c16, c17, c18, c19, c20, c21, c22, c23, c24, c25, c26, c27, c28,
    c29, c30, c31⟩

/-- C5: construction parses the `direction` model option into a `Topology`;
when the topology's source language list is nonempty, `self.sl` is its
first element and `src_vocab`, `n_src_vocab` come from the vocabulary
stored under that language; symmetrically for the target side. -/
theorem init_parses_topology_and_langs (pT : OptVal → Topology)
    (lV : String → String → Vocabulary) (opts : Opts) (st : NMTv2State)
    (h : init pT lV opts = Except.ok st) :
    (∃ dv, lookupKey "direction" st.opts_model = some dv ∧ st.topology = pT dv) ∧
    (∀ s r, st.topology.srcs = s :: r → st.sl = some s ∧
      ∃ v, lookupKey s st.vocabs = some v ∧ st.src_vocab = some v ∧
        st.n_src_vocab = some v.size) ∧
    (∀ t r, st.topology.trgs = t :: r → st.tl = some t ∧
      ∃ v, lookupKey t st.vocabs = some v ∧ st.trg_vocab = some v ∧
        st.n_trg_vocab = some v.size) := by
  obtain ⟨-, -, h3, h4, h5, -, -, -⟩ := init_ok_char pT lV opts st h
  exact ⟨h3, h4, h5⟩

/-- C6: construction builds a `Vocabulary` from each `(name, fname)` pair of
the vocabulary section and stores it under `name`, so the key list of
`self.vocabs` equals the key list of `opts.vocabulary`. -/
theorem init_loads_vocabularies (pT : OptVal → Topology)
    (lV : String → String → Vocabulary) (opts : Opts) (st : NMTv2State)
    (h : init pT lV opts = Except.ok st) :
    st.vocabs = opts.vocabulary.map (fun p => (p.1, lV p.2 p.1)) ∧
    st.vocabs.map Prod.fst = opts.vocabulary.map Prod.fst := by
  obtain ⟨-, h2, -, -, -, -, -, -⟩ := init_ok_char pT lV opts st h
  refine ⟨h2, ?_⟩
  rw [h2, List.map_map]
  rfl

/-- C7: under the `'3way'` tied-embeddings option, construction (with both
languages present, their vocabularies loadable and the `enc_dim` product
well-typed) raises `AssertionError` exactly when the source and target
vocabulary sizes differ; and when `setup` succeeds under `'3way'`, the
encoder's embedding weight is the same object as the decoder's. -/
theorem tied_3way_spec :
    (∀ (pT : OptVal → Topology) (lV : String → String → Vocabulary)
      (opts : Opts) (dv : OptVal) (s : String) (srest : List String)
      (t : String) (trest : List String) (v1 v2 : Vocabulary) (ev cv : OptVal),
      lookupKey "direction" (set_model_options opts.model) = some dv →
      (pT dv).srcs = s :: srest →
      (pT dv).trgs = t :: trest →
      lookupKey s (opts.vocabulary.map (fun p => (p.1, lV p.2 p.1))) = some v1 →
      lookupKey t (opts.vocabulary.map (fun p => (p.1, lV p.2 p.1))) = some v2 →
      lookupKey "enc_dim" (set_model_options opts.model) = some ev →
      pyMul2 ev = Except.ok cv →
      lookupKey "tied_emb" (set_model_options opts.model) = some (OptVal.vstr "3way") →
      (init pT lV opts = Except.error PyError.assertionError ↔ v1.size ≠ v2.size)) ∧
    (∀ (ew dw : Nat) (st st2 : NMTv2State) (e : TextEncoder) (d : GRUDecoder),
      lookupKey "tied_emb" st.opts_model = some (OptVal.vstr "3way") →
      setup ew dw st = Except.ok st2 →
      st2.enc = some e → st2.dec = some d →
      e.emb_weight = d.emb_weight) := by
  constructor
  · intro pT lV opts dv s srest t trest v1 v2 ev cv hdv hsrcs htrgs hv1 hv2 hev hcv htied
    exact init_3way_assert pT lV opts dv s srest t trest v1 v2 ev cv
      hdv hsrcs htrgs hv1 hv2 hev hcv htied
  · intro ew dw st st2 e d htied hs he hd
    obtain ⟨e2, d2, hst2, c1, c2, c3, c4, c5, c6, c7, c8, c9, c10, c11, c12,
      c13, c14, c15, c16, c17, c18, c19, c20, c21, c22, c23, c24, c25, c26,
      c27, c28, c29, c30, c31, c32, c33, c34⟩ := setup_ok_char ew dw st st2 hs
    subst hst2
    simp only [Option.some.injEq] at he hd
    subst he
    subst hd
    rw [c19] at htied
    simp only [Option.some.injEq] at htied
    exact c33 htied

/-- C8: after a successful construction, `ctx_sizes` maps the source
language string to exactly twice the `enc_dim` option, and `setup`, the
only operation that rebinds instance attributes, leaves `ctx_sizes`
unchanged. -/
theorem ctx_sizes_spec (pT : OptVal → Topology) (lV : String → String → Vocabulary)
    (opts : Opts) (st st2 : NMTv2State) (ew dw : Nat) (n : Int) (s : String)
    (h : init pT lV opts = Except.ok st)
    (hsl : st.sl = some s)
    (hek : lookupKey "enc_dim" st.opts_model = some (OptVal.vint n)) :
    st.ctx_sizes = [(s, OptVal.vint (n * 2))] ∧
    (setup ew dw st = Except.ok st2 → st2.ctx_sizes = st.ctx_sizes) := by
  obtain ⟨-, -, -, -, -, hctx, -, -⟩ := init_ok_char pT lV opts st h
  obtain ⟨s2, ev, cv, hs2, hev, hcv, hctxeq⟩ := hctx
  rw [hsl] at hs2
  simp only [Option.some.injEq] at hs2
  subst hs2
  rw [hek] at hev
  simp only [Option.some.injEq] at hev
  subst hev
  simp only [pyMul2, Except.ok.injEq] at hcv
  subst hcv
  refine ⟨hctxeq, ?_⟩
  intro hs
  obtain ⟨e, d, hst2, -⟩ := setup_ok_char ew dw st st2 hs
  subst hst2
  rfl

theorem length_filterMap_enumFrom (i n : Nat) (xs : List Int) :
    ((List.enumFrom n xs).filterMap (fun jx =>
      if jx.2 ≠ 0 then some (i, jx.1) else none)).length
      = xs.countP (fun x => x != 0) := by
  induction xs generalizing n with
  | nil => rfl
  | cons x rest ih =>
    rw [List.enumFrom_cons, List.countP_cons]
    by_cases hx : x = 0
    · rw [List.filterMap_cons_none (by simp [hx]), ih]
      simp [hx]
    · rw [List.filterMap_cons_some (b := (i, n)) (by simp [hx]), List.length_cons, ih]
      simp [hx]

theorem torchNonzero_length_from (n : Nat) (t : Tensor) :
    (((List.enumFrom n t).map (fun ir =>
      ir.2.enum.filterMap (fun jx =>
        if jx.2 ≠ 0 then some (ir.1, jx.1) else none))).flatten).length
      = (t.map (fun row => row.countP (fun x => x != 0))).sum := by
  induction t generalizing n with
  | nil => rfl
  | cons row rest ih =>
    rw [List.enumFrom_cons, List.map_cons, List.flatten_cons, List.length_append,
        List.map_cons, List.sum_cons, ih (n + 1)]
    congr 1
    exact length_filterMap_enumFrom n 0 row

theorem torchNonzero_length (t : Tensor) :
    (torchNonzero t).length
      = (t.map (fun row => row.countP (fun x => x != 0))).sum :=
  torchNonzero_length_from 0 t

theorem pair_foldl {α β γ : Type} (f : α → γ → α) (g : β → γ → β)
    (l : List γ) (acc : α × β) :
    l.foldl (fun acc c => (f acc.1 c, g acc.2 c)) acc =
      (l.foldl f acc.1, l.foldl g acc.2) := by
  induction l generalizing acc with
  | nil => rfl
  | cons c rest ih => simp [List.foldl_cons, ih]

theorem loss_foldl {γ : Type} (l : γ → Rat) (n : γ → Nat) (dl : List γ)
    (acc : LossState) :
    dl.foldl (fun acc b => Loss_update acc (l b) (n b)) acc =
      { total := acc.total + (dl.map (fun b => l b * n b)).sum,
        n_items := acc.n_items + (dl.map (fun b => n b)).sum } := by
  induction dl generalizing acc with
  | nil => simp
  | cons b rest ih =>
    rw [List.foldl_cons, ih]
    simp [Loss_update, add_assoc]

/-- C2: `forward` returns the decoder applied to the encoder's output and
the target tensor; `encode` maps the source language key to the encoder
applied to the source entry of the batch; the added `n_items` entry equals
the number of nonzero target tokens after the first time step. -/
theorem forward_spec {E L : Type} (m : RuntimeModel E L) (batch : String → Tensor) :
    encode m batch = [(m.sl, m.enc (batch m.sl))] ∧
    forward m batch =
      { loss := (m.dec [(m.sl, m.enc (batch m.sl))] (batch m.tl)).loss,
        logps := (m.dec [(m.sl, m.enc (batch m.sl))] (batch m.tl)).logps,
        n_items := (((batch m.tl).drop 1).map
          (fun row => row.countP (fun x => x != 0))).sum } := by
  refine ⟨rfl, ?_⟩
  rw [forward]
  simp [encode, torchNonzero_length]

/-- C3: `test_performance` runs `forward` on each batch, accumulates the
scalar loss weighted by the batch's token count together with the mean
reciprocal rank of the target tokens, and returns exactly two metrics: a
LOSS metric with `higher_better` false whose value is the token-weighted
average loss, and an MRR metric with `higher_better` true. -/
theorem test_performance_spec {E L M : Type} (m : RuntimeModel E L)
    (mrrInit : M) (mrrUpdate : M → Tensor → L → M) (mrrNorm : M → Rat)
    (dl : List (String → Tensor)) :
    test_performance m mrrInit mrrUpdate mrrNorm dl =
      [ { name := "LOSS",
          value :=
            ((dl.map (fun b => (forward m b).loss * ((forward m b).n_items : Rat))).sum) /
              (((dl.map (fun b => (forward m b).n_items)).sum : Nat) : Rat),
          higher_better := false },
        { name := "MRR",
          value := mrrNorm (dl.foldl
            (fun acc b => mrrUpdate acc ((b m.tl).drop 1) (forward m b).logps)
            mrrInit),
          higher_better := true } ] := by
  rw [test_performance]
  rw [pair_foldl (fun a b => Loss_update a (forward m b).loss (forward m b).n_items)
    (fun a b => mrrUpdate a ((b m.tl).drop 1) (forward m b).logps) dl]
  rw [loss_foldl (fun b => (forward m b).loss) (fun b => (forward m b).n_items) dl]
  simp [Loss_get, Nat.cast_list_sum]

theorem get_reset_parameters (init_fn : PyParam → Int) (params : List PyParam)
    (i : Nat) (hi : i < params.length)
    (hj : i < (reset_parameters init_fn params).length) :
    (reset_parameters init_fn params).get ⟨i, hj⟩ =
      (if (params.get ⟨i, hi⟩).requires_grad
          && !(strContains (params.get ⟨i, hi⟩).name "bias")
       then { params.get ⟨i, hi⟩ with data := init_fn (params.get ⟨i, hi⟩) }
       else params.get ⟨i, hi⟩) := by
  simp [reset_parameters, List.getElem_map]

/-- C9: `reset_parameters` keeps the parameter list's length, leaves every
parameter unchanged when it does not require gradients or its name
contains `'bias'`, and otherwise replaces only its data with the
re-initialized value, keeping name and flag. -/
theorem reset_parameters_spec (init_fn : PyParam → Int) (params : List PyParam)
    (i : Nat) (hi : i < params.length) :
    (reset_parameters init_fn params).length = params.length ∧
    ∀ (hj : i < (reset_parameters init_fn params).length),
      ((params.get ⟨i, hi⟩).requires_grad = false ∨
          strContains (params.get ⟨i, hi⟩).name "bias" = true →
        (reset_parameters init_fn params).get ⟨i, hj⟩ = params.get ⟨i, hi⟩) ∧
      ((params.get ⟨i, hi⟩).requires_grad = true ∧
          strContains (params.get ⟨i, hi⟩).name "bias" = false →
        (reset_parameters init_fn params).get ⟨i, hj⟩ =
          { params.get ⟨i, hi⟩ with
              data := init_fn (params.get ⟨i, hi⟩) }) := by
  refine ⟨by simp [reset_parameters], ?_⟩
  intro hj
  constructor
  · intro hcond
    rw [get_reset_parameters init_fn params i hi hj]
    have hfalse : ((params.get ⟨i, hi⟩).requires_grad
        && !(strContains (params.get ⟨i, hi⟩).name "bias")) = false := by
      rcases hcond with hc | hc
      · rw [hc]; rfl
      · rw [hc]; simp
    rw [hfalse]
    simp
  · intro hcond
    rw [get_reset_parameters init_fn params i hi hj]
    have htrue : ((params.get ⟨i, hi⟩).requires_grad
        && !(strContains (params.get ⟨i, hi⟩).name "bias")) = true := by
      rw [hcond.1, hcond.2]; rfl
    rw [htrue]
    simp

/-- Witness for C4: `setup` on the concrete constructed state `st0`. -/
theorem setup_builds_layers_witness :
    (setup 0 1 st0 = Except.ok st0s) ∧
    (∃ e d, st0s.enc = some e ∧ st0s.dec = some d ∧
      lookupKey "emb_dim" st0.opts_model = some e.input_size ∧
      lookupKey "enc_dim" st0.opts_model = some e.hidden_size ∧
      st0.n_src_vocab = some e.n_vocab ∧
      lookupKey "enc_type" st0.opts_model = some e.rnn_type ∧
      lookupKey "n_encoders" st0.opts_model = some e.num_layers ∧
      lookupKey "dropout_emb" st0.opts_model = some e.dropout_emb ∧
      lookupKey "dropout_ctx" st0.opts_model = some e.dropout_ctx ∧
      lookupKey "dropout_enc" st0.opts_model = some e.dropout_rnn ∧
      lookupKey "emb_maxnorm" st0.opts_model = some e.emb_maxnorm ∧
      lookupKey "emb_gradscale" st0.opts_model = some e.emb_gradscale ∧
      lookupKey "emb_dim" st0.opts_model = some d.input_size ∧
      lookupKey "dec_dim" st0.opts_model = some d.hidden_size ∧
      d.ctx_size_dict = st0.ctx_sizes ∧
      st0.n_trg_vocab = some d.n_vocab ∧
      lookupKey "n_layers_preatt" st0.opts_model = some d.n_layers_preatt ∧
      lookupKey "n_layers_postatt" st0.opts_model = some d.n_layers_postatt ∧
      lookupKey "tied_emb" st0.opts_model = some d.tied_emb ∧
      lookupKey "dec_init" st0.opts_model = some d.dec_init ∧
      lookupKey "dec_init_size" st0.opts_model = some d.dec_init_size ∧
      lookupKey "dec_init_activ" st0.opts_model = some d.dec_init_activ ∧
      lookupKey "att_type" st0.opts_model = some d.att_type ∧
      lookupKey "att_activ" st0.opts_model = some d.att_activ ∧
      lookupKey "att_bottleneck" st0.opts_model = some d.att_bottleneck ∧
      lookupKey "att_temp" st0.opts_model = some d.att_temp ∧
      lookupKey "att_mlp_bias" st0.opts_model = some d.att_mlp_bias ∧
      lookupKey "dropout_out" st0.opts_model = some d.dropout_out ∧
      lookupKey "dropout_dec" st0.opts_model = some d.dropout_dec ∧
      lookupKey "emb_maxnorm" st0.opts_model = some d.emb_maxnorm ∧
      lookupKey "emb_gradscale" st0.opts_model = some d.emb_gradscale) :=
  ⟨rfl, setup_builds_layers 0 1 st0 st0s rfl⟩

/-- Witness for C5: construction from the concrete `opts0`. -/
theorem init_parses_topology_and_langs_witness :
    (init pT0 lV0 opts0 = Except.ok st0) ∧
    ((∃ dv, lookupKey "direction" st0.opts_model = some dv ∧ st0.topology = pT0 dv) ∧
    (∀ s r, st0.topology.srcs = s :: r → st0.sl = some s ∧
      ∃ v, lookupKey s st0.vocabs = some v ∧ st0.src_vocab = some v ∧
        st0.n_src_vocab = some v.size) ∧
    (∀ t r, st0.topology.trgs = t :: r → st0.tl = some t ∧
      ∃ v, lookupKey t st0.vocabs = some v ∧ st0.trg_vocab = some v ∧
        st0.n_trg_vocab = some v.size)) :=
  ⟨rfl, init_parses_topology_and_langs pT0 lV0 opts0 st0 rfl⟩

/-- Witness for C6: vocabulary loading from the concrete `opts0`. -/
theorem init_loads_vocabularies_witness :
    (init pT0 lV0 opts0 = Except.ok st0) ∧
    (st0.vocabs = opts0.vocabulary.map (fun p => (p.1, lV0 p.2 p.1)) ∧
     st0.vocabs.map Prod.fst = opts0.vocabulary.map Prod.fst) :=
  ⟨rfl, init_loads_vocabularies pT0 lV0 opts0 st0 rfl⟩

/-- Witness for C7: the assertion equivalence at the concrete `opts1`
(equal vocabulary sizes, so construction does not assert) and the weight
tying of the concrete `setup` run. -/
theorem tied_3way_spec_witness :
    ((init pT0 lV0 opts1 = Except.error PyError.assertionError ↔
        (lV0 "en.vocab" "en").size ≠ (lV0 "de.vocab" "de").size)) ∧
    e1.emb_weight = d1.emb_weight :=
  ⟨tied_3way_spec.1 pT0 lV0 opts1 (OptVal.vstr "en->de") "en" [] "de" []
      (lV0 "en.vocab" "en") (lV0 "de.vocab" "de") (OptVal.vint 256) (OptVal.vint 512)
      rfl rfl rfl rfl rfl rfl rfl rfl,
   tied_3way_spec.2 0 1 st1 st1s e1 d1 rfl rfl rfl rfl⟩

/-- Witness for C8: the context-size mapping of the concrete constructed
state `st0` and its preservation by `setup`. -/
theorem ctx_sizes_spec_witness :
    (init pT0 lV0 opts0 = Except.ok st0) ∧
    (st0.ctx_sizes = [("en", OptVal.vint (256 * 2))] ∧
     (setup 0 1 st0 = Except.ok st0s → st0s.ctx_sizes = st0.ctx_sizes)) :=
  ⟨rfl, ctx_sizes_spec pT0 lV0 opts0 st0 st0s 0 1 256 "en" rfl rfl rfl⟩

/-- Witness for C9: the length preservation and the per-index behaviour of
`reset_parameters` at index 0 of the concrete `params0`. -/
theorem reset_parameters_spec_witness :
    (0 < params0.length) ∧
    ((reset_parameters (fun _ => 42) params0).length = params0.length ∧
     ∀ (hj : 0 < (reset_parameters (fun _ => 42) params0).length),
      ((params0.get ⟨0, by decide⟩).requires_grad = false ∨
          strContains (params0.get ⟨0, by decide⟩).name "bias" = true →
        (reset_parameters (fun _ => 42) params0).get ⟨0, hj⟩ =
          params0.get ⟨0, by decide⟩) ∧
      ((params0.get ⟨0, by decide⟩).requires_grad = true ∧
          strContains (params0.get ⟨0, by decide⟩).name "bias" = false →
        (reset_parameters (fun _ => 42) params0).get ⟨0, hj⟩ =
          { params0.get ⟨0, by decide⟩ with
              data := (fun _ => 42) (params0.get ⟨0, by decide⟩) })) :=
  ⟨by decide, reset_parameters_spec (fun _ => 42) params0 0 (by decide)⟩

end NMTv2

